import Mathlib

/-!
Verification of the Paris Dental content/lead-capture backend
(`main.py`, `schemas.py`) against its natural-language specification.

The document database (module `database`: the handle `db`,
`create_document`, `get_documents`) is an external collaborator whose
module is not part of the sources; per the spec it supports insert-one,
count, find-with-filter and list-collection-names, and those operations
are modelled here from the spec's words.  Everything else is translated
directly from `main.py` / `schemas.py`.
-/

/-- A JSON-ish value stored in a document field. -/
inductive Value where
  | null : Value
  | str (s : String) : Value
  | int (n : Int) : Value
  | bool (b : Bool) : Value
  | strList (l : List String) : Value
  | time (t : Nat) : Value
deriving Repr, DecidableEq

/-- A document: an association list of field name to value (keys unique
by construction, mirroring a Python dict / BSON document). -/
abbrev Doc : Type := List (String × Value)

/-- `d.get k` looks a field up, like `d.get(k)` on a Python dict. -/
def Doc.get (d : Doc) (k : String) : Option Value :=
  (List.find? (fun kv => kv.1 == k) d).map (fun kv => kv.2)

/-- `d.pop("_id", None)`: remove the internal identifier field. -/
def Doc.popId (d : Doc) : Doc :=
  List.filter (fun kv => !(kv.1 == "_id")) d

/-- Whether a document carries a field named `k`. -/
def Doc.hasKey (d : Doc) (k : String) : Bool :=
  List.any d (fun kv => kv.1 == k)

/-- The shapes of MongoDB filters the handlers build: no filter,
an exact field-equality filter, or a `{field: {"$in": [...]}}` filter
on an array-valued field. -/
inductive DbFilter where
  | empty : DbFilter
  | eqF (k : String) (v : Value) : DbFilter
  | tagsIn (k : String) (vs : List String) : DbFilter
deriving Repr, DecidableEq

/-- Modelled from the spec: the document database's find-with-filter
match semantics for the three filter shapes used by the handlers.
An equality filter matches when the field holds exactly that value; an
`$in` filter on an array field matches when the stored array contains
one of the listed values. -/
def matchesFilter : DbFilter → Doc → Bool
  | .empty, _ => true
  | .eqF k v, d => decide (d.get k = some v)
  | .tagsIn k vs, d =>
    match d.get k with
    | some (.strList l) => vs.any (fun v => l.contains v)
    | _ => false

/-! ## Schemas (`schemas.py`) -/

/-- `schemas.AppointmentRequest` (pydantic model). -/
structure AppointmentRequest where
  full_name : String
  email : Option String := none
  phone : String
  preferred_date : Option String := none
  preferred_time : Option String := none
  service_type : Option String := none
  message : Option String := none
  source : Option String := some "website"
deriving Repr, DecidableEq

/-- `schemas.Testimonial` (pydantic model). -/
structure Testimonial where
  name : String
  quote : String
  rating : Int := 5
  photo_url : Option String := none
  featured : Bool := true
deriving Repr, DecidableEq

/-- `schemas.Post` (pydantic model); timestamps are modelled as `Nat`. -/
structure Post where
  title : String
  slug : String
  excerpt : Option String := none
  content : String
  author : Option String := some "Paris Dental"
  tags : List String := []
  published_at : Option Nat := none
  status : String := "published"
deriving Repr, DecidableEq

/-- `schemas.Service` (pydantic model). -/
structure Service where
  name : String
  category : String
  description : String
  highlights : List String := []
  icon : Option String := none
  slug : Option String := none
deriving Repr, DecidableEq

/-- An optional string field as stored in a document (`None` → null). -/
def optStr : Option String → Value
  | none => .null
  | some s => .str s

/-- An optional timestamp field as stored in a document. -/
def optTime : Option Nat → Value
  | none => .null
  | some t => .time t

/-- Field dump of an `AppointmentRequest` (pydantic `model_dump`). -/
def AppointmentRequest.toDoc (r : AppointmentRequest) : Doc :=
  [("full_name", .str r.full_name), ("email", optStr r.email),
   ("phone", .str r.phone), ("preferred_date", optStr r.preferred_date),
   ("preferred_time", optStr r.preferred_time),
   ("service_type", optStr r.service_type), ("message", optStr r.message),
   ("source", optStr r.source)]

/-- Field dump of a `Testimonial`. -/
def Testimonial.toDoc (t : Testimonial) : Doc :=
  [("name", .str t.name), ("quote", .str t.quote), ("rating", .int t.rating),
   ("photo_url", optStr t.photo_url), ("featured", .bool t.featured)]

/-- Field dump of a `Post`. -/
def Post.toDoc (p : Post) : Doc :=
  [("title", .str p.title), ("slug", .str p.slug), ("excerpt", optStr p.excerpt),
   ("content", .str p.content), ("author", optStr p.author),
   ("tags", .strList p.tags), ("published_at", optTime p.published_at),
   ("status", .str p.status)]

/-- Field dump of a `Service`. -/
def Service.toDoc (s : Service) : Doc :=
  [("name", .str s.name), ("category", .str s.category),
   ("description", .str s.description), ("highlights", .strList s.highlights),
   ("icon", optStr s.icon), ("slug", optStr s.slug)]

/-! ## Database state -/

/-- The collections of the document database that this backend touches,
plus a counter generating the database identifiers (`_id`). -/
structure DBState where
  nextId : Nat := 0
  meta : List Doc := []
  testimonial : List Doc := []
  service : List Doc := []
  post : List Doc := []
  appointmentrequest : List Doc := []
deriving Repr, DecidableEq

/-- The string form of the identifier the next insert will generate. -/
def freshId (db : DBState) : String := toString db.nextId

/-- Modelled from the spec: insert-one stores the document together with
a database-generated identifier field `_id`. -/
def withId (db : DBState) (d : Doc) : Doc :=
  ("_id", Value.str (freshId db)) :: d

/-- Modelled from the spec: `database.create_document("testimonial", t)`. -/
def insertTestimonial (db : DBState) (t : Testimonial) : DBState :=
  { db with nextId := db.nextId + 1,
            testimonial := db.testimonial ++ [withId db t.toDoc] }

/-- Modelled from the spec: `database.create_document("service", s)`. -/
def insertService (db : DBState) (s : Service) : DBState :=
  { db with nextId := db.nextId + 1,
            service := db.service ++ [withId db s.toDoc] }

/-- Modelled from the spec: `database.create_document("post", p)`. -/
def insertPost (db : DBState) (p : Post) : DBState :=
  { db with nextId := db.nextId + 1,
            post := db.post ++ [withId db p.toDoc] }

/-- Modelled from the spec: `database.create_document("appointmentrequest", r)`;
returns the generated identifier as a string, like the Python function. -/
def insertAppointment (db : DBState) (r : AppointmentRequest) : String × DBState :=
  (freshId db,
   { db with nextId := db.nextId + 1,
             appointmentrequest := db.appointmentrequest ++ [withId db r.toDoc] })

/-- Modelled from the spec: `db.meta.insert_one(d)`. -/
def insertMeta (db : DBState) (d : Doc) : DBState :=
  { db with nextId := db.nextId + 1, meta := db.meta ++ [withId db d] }

/-- Modelled from the spec: `database.get_documents(coll, filt)` is
find-with-filter on a collection. -/
def get_documents (coll : List Doc) (filt : DbFilter) : List Doc :=
  List.filter (matchesFilter filt) coll

/-! ## Seeding routine (`main.py`, `ensure_seed_data`) -/

/-- `SEED_RUN_FLAG` in `main.py`. -/
def SEED_RUN_FLAG : String := "__seed_paris_dental__"

/-- `db.meta.find_one({"key": SEED_RUN_FLAG})` is truthy. -/
def hasSentinel (db : DBState) : Bool :=
  List.any db.meta (matchesFilter (.eqF "key" (.str SEED_RUN_FLAG)))

/-- The three hardcoded sample testimonials of `ensure_seed_data`. -/
def seedTestimonials : List Testimonial :=
  [{ name := "A.M.", quote := "Best Temecula dentist experience I've ever had.",
     rating := 5, featured := true },
   { name := "J.S.", quote := "Beautiful office, gentle care, and amazing results!",
     rating := 5, featured := true },
   { name := "K.R.", quote := "They made me feel at ease from the moment I walked in.",
     rating := 5, featured := false }]

/-- The five hardcoded services of `ensure_seed_data`. -/
def seedServices : List Service :=
  [{ name := "General Dentistry", category := "General",
     description := "Cleanings, exams, and preventive care for the whole family.",
     highlights := ["Gentle cleanings", "Digital X-rays", "Comprehensive exams"],
     icon := some "Tooth", slug := some "general-dentistry" },
   { name := "Cosmetic Dentistry", category := "Cosmetic",
     description := "Veneers, whitening, and smile design for confident smiles.",
     highlights := ["Porcelain veneers", "Professional whitening", "Bonding"],
     icon := some "Sparkles", slug := some "cosmetic-dentistry" },
   { name := "Dental Implants", category := "Restorative",
     description := "Modern implant solutions to replace missing teeth.",
     highlights := ["Single and full-arch", "3D guided planning", "Natural aesthetics"],
     icon := some "Pillar", slug := some "dental-implants" },
   { name := "Periodontal Care", category := "Periodontal",
     description := "Laser-assisted therapy and maintenance for healthy gums.",
     highlights := ["Laser therapy", "Deep cleaning", "Periodontal maintenance"],
     icon := some "HeartPulse", slug := some "periodontal-care" },
   { name := "Dental Technology", category := "Technology",
     description := "State-of-the-art tech for precision and comfort.",
     highlights := ["CAD/CAM same-day", "3D CBCT imaging", "Intraoral scanning"],
     icon := some "Cpu", slug := some "dental-technology" }]

/-- The hardcoded welcome post of `ensure_seed_data`; `now` models the
`datetime.utcnow()` call. -/
def seedPost (now : Nat) : Post :=
  { title := "Welcome to Paris Dental – Modern Dental Care in Temecula",
    slug := "welcome-paris-dental",
    excerpt := some "Discover patient-first care powered by advanced technology in Temecula.",
    content := "We are thrilled to welcome you to our modern practice led by Dr. Noorullah Azim. Our team focuses on comfort, precision, and beautiful results.",
    author := some "Paris Dental",
    tags := ["Temecula dentist", "cosmetic dentistry"],
    published_at := some now,
    status := "published" }

/-- The sentinel document inserted into `meta` at the end of seeding. -/
def sentinelDoc (now : Nat) : Doc :=
  [("key", .str SEED_RUN_FLAG), ("created_at", .time now)]

/-- `ensure_seed_data` of `main.py`:  no-op on an absent handle; early
return when the sentinel is present; otherwise seed each empty content
collection and finish by inserting the sentinel into `meta`. -/
def ensure_seed_data (now : Nat) : Option DBState → Option DBState
  | none => none
  | some db =>
    if hasSentinel db then some db
    else
      let db1 := if db.testimonial.length = 0
                 then List.foldl insertTestimonial db seedTestimonials else db
      let db2 := if db1.service.length = 0
                 then List.foldl insertService db1 seedServices else db1
      let db3 := if db2.post.length = 0
                 then insertPost db2 (seedPost now) else db2
      some (insertMeta db3 (sentinelDoc now))

example :
    (ensure_seed_data 0 (some {})).map
      (fun db => (db.testimonial.length, db.service.length,
                  db.post.length, db.meta.length))
      = some (3, 5, 1, 1) := by decide

example :
    (ensure_seed_data 1 (ensure_seed_data 0 (some {})))
      = ensure_seed_data 0 (some {}) := by decide

/-! ## Startup with failure injection

`ensure_seed_data` performs a sequence of database operations, any of
which can raise (the database is an external collaborator).  The
fallible interpretation below tags each operation with a `FailPoint`;
when the injected failure point is reached, the run stops with the
state accumulated so far (`Except.error`), mirroring an exception
propagating out of the routine.  `startup_event` then swallows the
exception as in `main.py`. -/

/-- The database operations of `ensure_seed_data`, in program order. -/
inductive FailPoint where
  | findSentinel
  | countTestimonial
  | insertTestimonial (i : Nat)
  | countService
  | insertService (i : Nat)
  | countPost
  | insertPost
  | insertSentinel
deriving Repr, DecidableEq

/-- A `for x in xs: create_document(...)` loop where the `i`-th insert
raises when `failAt i` holds: the failing insert leaves no document. -/
def seedLoop {α : Type} (ins : DBState → α → DBState) (failAt : Nat → Bool) :
    List α → Nat → DBState → Except DBState DBState
  | [], _, db => .ok db
  | a :: rest, i, db =>
    if failAt i then .error db
    else seedLoop ins failAt rest (i + 1) (ins db a)

/-- `ensure_seed_data` on a present handle, with the operation named by
`fp` (if any) raising when reached.  `Except.error s` means the routine
escaped with an exception, leaving the database in state `s`. -/
def seedFallible (fp : Option FailPoint) (now : Nat) (db0 : DBState) :
    Except DBState DBState :=
  if fp = some .findSentinel then .error db0
  else if hasSentinel db0 then .ok db0
  else if fp = some .countTestimonial then .error db0
  else
    match (if db0.testimonial.length = 0
           then seedLoop insertTestimonial
             (fun i => decide (fp = some (.insertTestimonial i))) seedTestimonials 0 db0
           else .ok db0) with
    | .error s => .error s
    | .ok db1 =>
      if fp = some .countService then .error db1
      else
        match (if db1.service.length = 0
               then seedLoop insertService
                 (fun i => decide (fp = some (.insertService i))) seedServices 0 db1
               else .ok db1) with
        | .error s => .error s
        | .ok db2 =>
          if fp = some .countPost then .error db2
          else
            match (if db2.post.length = 0
                   then (if fp = some .insertPost then Except.error db2
                         else .ok (insertPost db2 (seedPost now)))
                   else .ok db2) with
            | .error s => .error s
            | .ok db3 =>
              if fp = some .insertSentinel then .error db3
              else .ok (insertMeta db3 (sentinelDoc now))

/-- `startup_event` of `main.py`: run seeding, swallowing any exception
(best-effort); a missing handle makes seeding a no-op. -/
def startup_event (fp : Option FailPoint) (now : Nat) :
    Option DBState → Option DBState
  | none => none
  | some db =>
    some (match seedFallible fp now db with
          | .ok s => s
          | .error s => s)

/-! ## Request handlers (`main.py`) -/

/-- An inbound JSON body for `POST /api/appointment`, before pydantic
validation: each schema field either absent/null (`none`) or a string.
`source` distinguishes absent (outer `none`, so the `"website"` default
applies) from explicit null. -/
structure RawAppointment where
  full_name : Option String := none
  email : Option String := none
  phone : Option String := none
  preferred_date : Option String := none
  preferred_time : Option String := none
  service_type : Option String := none
  message : Option String := none
  source : Option (Option String) := none
deriving Repr, DecidableEq

/-- Split a character list at every occurrence of `c`. -/
def splitOnChar (c : Char) : List Char → List (List Char)
  | [] => [[]]
  | x :: xs =>
    let r := splitOnChar c xs
    if x = c then [] :: r
    else
      match r with
      | [] => [[x]]
      | h :: t => (x :: h) :: t

/-- Modelled from the spec: the `EmailStr` constraint of
`AppointmentRequest.email` ("must be valid email format if present").
A valid address has exactly one `@` separating a non-empty local part
from a domain made of at least two non-empty dot-separated labels. -/
def isValidEmail (s : String) : Bool :=
  match splitOnChar '@' s.data with
  | [loc, dom] =>
    !loc.isEmpty && !dom.isEmpty &&
      (let labels := splitOnChar '.' dom
       decide (2 ≤ labels.length) && labels.all (fun p => !p.isEmpty))
  | _ => false

/-- Modelled from the spec: pydantic validation of the inbound body
against the `AppointmentRequest` schema of `schemas.py` — required
fields `full_name` and `phone` must be present, `email` must satisfy
the email format when present, optional fields default per the schema
(`source` to `"website"` when absent). -/
def parseAppointment (r : RawAppointment) : Option AppointmentRequest :=
  match r.full_name, r.phone with
  | some fn, some ph =>
    match r.email with
    | some e =>
      if isValidEmail e then
        some { full_name := fn, email := some e, phone := ph,
               preferred_date := r.preferred_date,
               preferred_time := r.preferred_time,
               service_type := r.service_type, message := r.message,
               source := r.source.getD (some "website") }
      else none
    | none =>
      some { full_name := fn, email := none, phone := ph,
             preferred_date := r.preferred_date,
             preferred_time := r.preferred_time,
             service_type := r.service_type, message := r.message,
             source := r.source.getD (some "website") }
  | _, _ => none

/-- Outcome of `POST /api/appointment`: the `AppointmentResponse` body
on success, or FastAPI's client-error rejection when the body fails
schema validation (which happens before the handler body runs). -/
inductive AppointmentResult where
  | created (id : String) (success : Bool)
  | validationError
deriving Repr, DecidableEq

/-- `create_appointment` of `main.py`, including the framework's schema
validation step: an invalid body is rejected with a client error and the
handler (and so the insert) never runs. -/
def create_appointment (raw : RawAppointment) (db : DBState) :
    AppointmentResult × DBState :=
  match parseAppointment raw with
  | none => (.validationError, db)
  | some req =>
    let p := insertAppointment db req
    (.created p.1 true, p.2)

/-- `get_testimonials` of `main.py`: `filt["featured"] = featured` when
the parameter is not `None`, query, strip `_id` from each record. -/
def get_testimonials (featured : Option Bool) (db : DBState) : List Doc :=
  let filt := match featured with
    | some b => DbFilter.eqF "featured" (.bool b)
    | none => DbFilter.empty
  (get_documents db.testimonial filt).map Doc.popId

/-- `get_services` of `main.py`:
`filt = {"category": category} if category else {}` — Python truthiness,
so `None` and the empty string both yield the empty filter. -/
def get_services (category : Option String) (db : DBState) : List Doc :=
  let filt := match category with
    | some c => if c == "" then DbFilter.empty
                else DbFilter.eqF "category" (.str c)
    | none => DbFilter.empty
  (get_documents db.service filt).map Doc.popId

/-- `get_posts` of `main.py`:
`filt = {"tags": {"$in": [tag]}} if tag else {}`. -/
def get_posts (tag : Option String) (db : DBState) : List Doc :=
  let filt := match tag with
    | some t => if t == "" then DbFilter.empty
                else DbFilter.tagsIn "tags" [t]
    | none => DbFilter.empty
  (get_documents db.post filt).map Doc.popId

/-! ## Diagnostic probe (`main.py`, `test_database`) -/

/-- The `/test` response body; every field is always present. -/
structure TestResponse where
  backend : String
  database : String
  database_url : String
  database_name : String
  connection_status : String
  collections : List String
deriving Repr, DecidableEq

/-- Python truthiness of `os.getenv(...)`: unset and empty are falsy. -/
def pyTruthy : Option String → Bool
  | none => false
  | some s => !(s == "")

/-- `str(e)[:80]`: the first 80 characters of the error message. -/
def trunc80 (e : String) : String := String.mk (List.take 80 e.data)

/-- `test_database` of `main.py`.  `dbPresent` is whether the handle
`db` is not `None`; `url`/`name` are the `DATABASE_URL`/`DATABASE_NAME`
environment variables; `listRes` is the outcome of
`db.list_collection_names()` (modelled from the spec as an external
call that either returns the names or raises).  Returns HTTP status and
body. -/
def test_database (dbPresent : Bool) (url name : Option String)
    (listRes : Except String (List String)) : Nat × TestResponse :=
  let r0 : TestResponse :=
    { backend := "✅ Running", database := "❌ Not Available",
      database_url := "❌ Not Set", database_name := "❌ Not Set",
      connection_status := "Not Connected", collections := [] }
  if dbPresent then
    let r1 := { r0 with
      database := "✅ Available",
      database_url := if pyTruthy url then "✅ Set" else "❌ Not Set",
      database_name := if pyTruthy name then name.getD "" else "❌ Not Set",
      connection_status := "Connected" }
    match listRes with
    | .ok cols =>
      (200, { r1 with collections := cols, database := "✅ Connected & Working" })
    | .error e =>
      (200, { r1 with database := "⚠️ Connected but Error: " ++ trunc80 e })
  else
    (200, { r0 with database := "⚠️ Available but not initialized" })

example : isValidEmail "not-an-email" = false := by decide

example : isValidEmail "a@b.co" = true := by decide

example :
    (seedFallible (some (.insertService 2)) 0 {}).isOk = false := by decide

/-! ## Helper lemmas -/

theorem hasSentinel_congr {s db : DBState} (h : s.meta = db.meta) :
    hasSentinel s = hasSentinel db := by
  unfold hasSentinel; rw [h]

theorem seedLoop_meta {α : Type} (ins : DBState → α → DBState)
    (failAt : Nat → Bool) (hins : ∀ db a, (ins db a).meta = db.meta) :
    ∀ (l : List α) (i : Nat) (db : DBState) (r : Except DBState DBState),
      seedLoop ins failAt l i db = r →
      (match r with | .error s => s.meta = db.meta | .ok s => s.meta = db.meta) := by
  intro l
  induction l with
  | nil =>
    intro i db r hr
    simp only [seedLoop] at hr
    subst hr; rfl
  | cons a rest ih =>
    intro i db r hr
    simp only [seedLoop] at hr
    by_cases hf : failAt i = true
    · rw [if_pos hf] at hr; subst hr; rfl
    · rw [if_neg hf] at hr
      have := ih (i + 1) (ins db a) r hr
      cases r with
      | error s => simpa [hins] using this
      | ok s => simpa [hins] using this
/-- C1: the seed routine is idempotent — on any initially empty database,
a second run of `ensure_seed_data` returns the state of the first run
unchanged, and that state holds exactly 3 testimonials, 5 services,
1 post and 1 sentinel record. -/
theorem seed_idempotent (now1 now2 : Nat) (db : DBState)
    (hm : db.meta = []) (ht : db.testimonial = [])
    (hs : db.service = []) (hp : db.post = []) :
    ensure_seed_data now2 (ensure_seed_data now1 (some db))
      = ensure_seed_data now1 (some db) ∧
    (ensure_seed_data now1 (some db)).map
        (fun d => (d.testimonial.length, d.service.length,
                   d.post.length, d.meta.length))
      = some (3, 5, 1, 1) := by
  obtain ⟨n, meta, t, s, p, a⟩ := db
  simp only at hm ht hs hp
  subst hm ht hs hp
  constructor
  · simp [ensure_seed_data, hasSentinel, seedTestimonials, seedServices,
      seedPost, insertTestimonial, insertService, insertPost, insertMeta,
      withId, sentinelDoc, matchesFilter, Doc.get, freshId, SEED_RUN_FLAG]
  · simp [ensure_seed_data, hasSentinel, seedTestimonials, seedServices,
      seedPost, insertTestimonial, insertService, insertPost, insertMeta,
      withId, sentinelDoc, matchesFilter, Doc.get, freshId, SEED_RUN_FLAG]

theorem seed_idempotent_witness :
    ensure_seed_data 5 (ensure_seed_data 3 (some ({} : DBState)))
      = ensure_seed_data 3 (some ({} : DBState)) ∧
    (ensure_seed_data 3 (some ({} : DBState))).map
        (fun d => (d.testimonial.length, d.service.length,
                   d.post.length, d.meta.length))
      = some (3, 5, 1, 1) :=
  seed_idempotent 3 5 {} rfl rfl rfl rfl
/-- C2: seeding is per-collection conditional — when the sentinel is
absent and `testimonial` is already non-empty, the run leaves the
testimonial collection exactly as it was, while `service` ends with 5
records exactly when it was empty (else its old count) and `post` ends
with 1 record exactly when it was empty (else its old count). -/
theorem seed_per_collection (now : Nat) (db : DBState)
    (hsent : hasSentinel db = false) (ht : 1 ≤ db.testimonial.length) :
    (ensure_seed_data now (some db)).map (fun d => d.testimonial)
      = some db.testimonial ∧
    (ensure_seed_data now (some db)).map (fun d => d.service.length)
      = some (if db.service.length = 0 then 5 else db.service.length) ∧
    (ensure_seed_data now (some db)).map (fun d => d.post.length)
      = some (if db.post.length = 0 then 1 else db.post.length) := by
  have ht0 : ¬ db.testimonial.length = 0 := by omega
  refine ⟨?_, ?_, ?_⟩ <;>
  · by_cases hsvc : db.service.length = 0 <;> by_cases hpost : db.post.length = 0 <;>
      simp [ensure_seed_data, hsent, ht0, hsvc, hpost, seedServices,
        insertService, insertPost, insertMeta, withId]

/-- A concrete pre-seeded state: one testimonial, one post, no sentinel. -/
def dbW2 : DBState :=
  { nextId := 7,
    testimonial := [[("_id", Value.str "5"), ("name", Value.str "X"),
                     ("quote", Value.str "Y")]],
    post := [[("_id", Value.str "6"), ("title", Value.str "T")]] }

theorem seed_per_collection_witness :
    hasSentinel dbW2 = false ∧ 1 ≤ dbW2.testimonial.length ∧
    (ensure_seed_data 0 (some dbW2)).map (fun d => d.testimonial)
      = some dbW2.testimonial :=
  ⟨by decide, by decide, (seed_per_collection 0 dbW2 (by decide) (by decide)).1⟩

/-- C3: whenever the handle is present and no sentinel exists yet, the
run of `ensure_seed_data` ends with the sentinel present in `meta`,
whatever the prior contents of the three content collections. -/
theorem seed_sentinel_unconditional (now : Nat) (db : DBState)
    (hsent : hasSentinel db = false) :
    (ensure_seed_data now (some db)).map hasSentinel = some true := by
  by_cases h1 : db.testimonial.length = 0 <;>
  by_cases h2 : db.service.length = 0 <;>
  by_cases h3 : db.post.length = 0 <;>
  · simp only [ensure_seed_data, hsent]
    simp [h1, h2, h3, hasSentinel, seedTestimonials, seedServices,
      insertTestimonial, insertService, insertPost, insertMeta,
      withId, sentinelDoc, matchesFilter, Doc.get, SEED_RUN_FLAG]

theorem seed_sentinel_unconditional_witness :
    hasSentinel dbW2 = false ∧
    (ensure_seed_data 0 (some dbW2)).map hasSentinel = some true :=
  ⟨by decide, seed_sentinel_unconditional 0 dbW2 (by decide)⟩

theorem seedIf_error_meta {α : Type} (ins : DBState → α → DBState)
    (failAt : Nat → Bool) (hins : ∀ d a, (ins d a).meta = d.meta)
    (c : Prop) [Decidable c] (l : List α) (db s : DBState)
    (h : (if c then seedLoop ins failAt l 0 db else Except.ok db)
          = Except.error s) :
    s.meta = db.meta := by
  split at h
  · exact seedLoop_meta ins failAt hins l 0 db _ h
  · simp at h

theorem seedIf_ok_meta {α : Type} (ins : DBState → α → DBState)
    (failAt : Nat → Bool) (hins : ∀ d a, (ins d a).meta = d.meta)
    (c : Prop) [Decidable c] (l : List α) (db s : DBState)
    (h : (if c then seedLoop ins failAt l 0 db else Except.ok db)
          = Except.ok s) :
    s.meta = db.meta := by
  split at h
  · exact seedLoop_meta ins failAt hins l 0 db _ h
  · injection h with h; rw [← h]

theorem seedFallible_error_meta (fp : Option FailPoint) (now : Nat)
    (db s : DBState) (herr : seedFallible fp now db = .error s) :
    s.meta = db.meta := by
  unfold seedFallible at herr
  split at herr
  · injection herr with h; rw [← h]
  · split at herr
    · simp at herr
    · split at herr
      · injection herr with h; rw [← h]
      · split at herr
        · next s1 heq =>
          injection herr with h
          rw [← h]
          exact seedIf_error_meta insertTestimonial _ (fun _ _ => rfl) _ seedTestimonials db s1 heq
        · next db1 heq =>
          have hm1 : db1.meta = db.meta :=
            seedIf_ok_meta insertTestimonial _ (fun _ _ => rfl) _ seedTestimonials db db1 heq
          split at herr
          · injection herr with h; rw [← h]; exact hm1
          · split at herr
            · next s2 heq2 =>
              injection herr with h
              rw [← h, seedIf_error_meta insertService _ (fun _ _ => rfl) _ seedServices db1 s2 heq2]
              exact hm1
            · next db2 heq2 =>
              have hm2 : db2.meta = db1.meta :=
                seedIf_ok_meta insertService _ (fun _ _ => rfl) _ seedServices db1 db2 heq2
              split at herr
              · injection herr with h; rw [← h]; exact hm2.trans hm1
              · split at herr
                · next s3 heq3 =>
                  injection herr with h
                  rw [← h]
                  have hm3 : s3.meta = db2.meta := by
                    split at heq3
                    · split at heq3
                      · injection heq3 with h3; rw [← h3]
                      · simp at heq3
                    · simp at heq3
                  rw [hm3]; exact hm2.trans hm1
                · next db3 heq3 =>
                  have hm3 : db3.meta = db2.meta := by
                    split at heq3
                    · split at heq3
                      · simp at heq3
                      · injection heq3 with h3
                        rw [← h3]; simp [insertPost]
                    · injection heq3 with h3; rw [← h3]
                  split at herr
                  · injection herr with h; rw [← h]
                    exact hm3.trans (hm2.trans hm1)
                  · simp at herr

/-- C9: the sentinel write is the last operation of the seed routine —
any run that escapes with an exception (injected at any operation)
leaves `meta` without the sentinel, so a later run will attempt seeding
again, and the startup hook swallows the exception, keeping the
partially-seeded state instead of crashing. -/
theorem seed_exception_leaves_no_sentinel (fp : Option FailPoint) (now : Nat)
    (db s : DBState) (hsent : hasSentinel db = false)
    (herr : seedFallible fp now db = .error s) :
    hasSentinel s = false ∧ startup_event fp now (some db) = some s := by
  have hmeta := seedFallible_error_meta fp now db s herr
  refine ⟨?_, ?_⟩
  · rw [hasSentinel_congr hmeta]; exact hsent
  · simp [startup_event, herr]

theorem seed_exception_leaves_no_sentinel_witness :
    hasSentinel ({} : DBState) = false ∧
    seedFallible (some (.insertTestimonial 0)) 0 {} = .error {} ∧
    (hasSentinel ({} : DBState) = false ∧
      startup_event (some (.insertTestimonial 0)) 0 (some {}) = some {}) :=
  ⟨by decide, by rfl,
   seed_exception_leaves_no_sentinel (some (.insertTestimonial 0)) 0 {} {}
     (by decide) (by rfl)⟩

theorem toDigitsCore_length_ge (b : Nat) :
    ∀ (f n : Nat) (l : List Char), l.length ≤ (Nat.toDigitsCore b f n l).length := by
  intro f
  induction f with
  | zero => intro n l; simp [Nat.toDigitsCore]
  | succ f ih =>
    intro n l
    simp only [Nat.toDigitsCore]
    split
    · simp
    · exact le_trans (by simp) (ih (n / b) (Nat.digitChar (n % b) :: l))

theorem toString_nat_ne_empty (n : Nat) : toString n ≠ "" := by
  show Nat.repr n ≠ ""
  unfold Nat.repr
  intro h
  have h2 : Nat.toDigits 10 n = [] := by
    have h1 := congrArg String.data h
    simpa [List.asString] using h1
  have h3 : 1 ≤ (Nat.toDigits 10 n).length := by
    unfold Nat.toDigits
    simp only [Nat.toDigitsCore]
    split
    · simp
    · exact le_trans (by simp)
        (toDigitsCore_length_ge 10 n (n / 10) [Nat.digitChar (n % 10)])
  rw [h2] at h3
  simp at h3

/-- C4: a `POST /api/appointment` body that misses the required `phone`
field, or carries an email failing the format constraint, is rejected by
schema validation with a client-error response, and the
`appointmentrequest` collection is untouched (the database state is
returned unchanged, so no persistence call happened). -/
theorem appointment_invalid_rejected (raw : RawAppointment) (db : DBState)
    (h : raw.phone = none ∨ ∃ e, raw.email = some e ∧ isValidEmail e = false) :
    parseAppointment raw = none ∧
    create_appointment raw db = (.validationError, db) := by
  have hp : parseAppointment raw = none := by
    rcases h with hph | ⟨e, he, hbad⟩
    · cases hf : raw.full_name <;> simp [parseAppointment, hf, hph]
    · cases hf : raw.full_name <;> cases hph : raw.phone <;>
        simp [parseAppointment, hf, hph, he, hbad]
  exact ⟨hp, by simp [create_appointment, hp]⟩

theorem appointment_invalid_rejected_witness :
    ({ full_name := some "John Doe" } : RawAppointment).phone = none ∧
    (parseAppointment { full_name := some "John Doe" } = none ∧
     create_appointment { full_name := some "John Doe" } {}
       = (.validationError, {})) :=
  ⟨rfl, appointment_invalid_rejected { full_name := some "John Doe" } {}
          (Or.inl rfl)⟩

/-- C5: a body that passes validation is inserted into the
`appointmentrequest` collection: the response carries the generated
identifier (a non-empty string) and `success = true`, and the stored
record, with the internal identifier stripped, is exactly the submitted
field values. -/
theorem appointment_valid_created (raw : RawAppointment)
    (req : AppointmentRequest) (db : DBState)
    (hp : parseAppointment raw = some req) :
    create_appointment raw db =
      (.created (freshId db) true,
        { db with nextId := db.nextId + 1,
                  appointmentrequest :=
                    db.appointmentrequest ++ [withId db req.toDoc] }) ∧
    freshId db ≠ "" ∧
    Doc.popId (withId db req.toDoc) = req.toDoc := by
  refine ⟨by simp [create_appointment, hp, insertAppointment],
          toString_nat_ne_empty db.nextId, ?_⟩
  simp [Doc.popId, withId, AppointmentRequest.toDoc]

/-- A valid inbound appointment body. -/
def rawW : RawAppointment :=
  { full_name := some "Jane Roe", email := some "jane@example.com",
    phone := some "555-0100" }

/-- The validated record `rawW` parses to. -/
def reqW : AppointmentRequest :=
  { full_name := "Jane Roe", email := some "jane@example.com",
    phone := "555-0100" }

theorem appointment_valid_created_witness :
    parseAppointment rawW = some reqW ∧ freshId ({} : DBState) ≠ "" :=
  ⟨by decide, (appointment_valid_created rawW reqW {} (by decide)).2.1⟩

theorem popId_get_ne (k : String) (hk : k ≠ "_id") (d : Doc) :
    (Doc.popId d).get k = d.get k := by
  induction d with
  | nil => rfl
  | cons kv rest ih =>
    by_cases h1 : kv.1 = "_id"
    · simpa [Doc.popId, Doc.get, List.filter_cons, h1, Ne.symm hk] using ih
    · by_cases h2 : kv.1 = k
      · simp [Doc.popId, Doc.get, List.filter_cons, List.find?_cons, h1, h2, hk]
      · simpa [Doc.popId, Doc.get, List.filter_cons, List.find?_cons, h1, h2]
          using ih

theorem popId_hasKey_id (d : Doc) : (Doc.popId d).hasKey "_id" = false := by
  simp [Doc.popId, Doc.hasKey]

theorem filter_empty_all (l : List Doc) :
    List.filter (matchesFilter DbFilter.empty) l = l := by
  induction l with
  | nil => rfl
  | cons d rest ih => simp [List.filter_cons, matchesFilter, ih]

/-- C6: `GET /api/services` with a non-empty `category` value filters
the `service` collection on `{category: value}` — every returned record
has exactly that category; with the parameter omitted it returns every
service record (identifier stripped); a category matching nothing
yields the empty array rather than an error. -/
theorem services_category_filter (db : DBState) (c : String) (hc : c ≠ "") :
    (∀ d ∈ get_services (some c) db, d.get "category" = some (.str c)) ∧
    get_services none db = db.service.map Doc.popId ∧
    ((∀ d ∈ db.service, ¬ d.get "category" = some (.str c)) →
      get_services (some c) db = []) := by
  refine ⟨?_, ?_, ?_⟩
  · intro d hd
    simp [get_services, hc, get_documents] at hd
    obtain ⟨d', ⟨_, hmatch⟩, rfl⟩ := hd
    rw [popId_get_ne "category" (by decide) d']
    simpa [matchesFilter] using hmatch
  · simp [get_services, get_documents, filter_empty_all]
  · intro hnone
    have hfil :
        List.filter (matchesFilter (.eqF "category" (.str c))) db.service
          = [] := by
      rw [List.filter_eq_nil_iff]
      intro a ha
      simp only [matchesFilter, decide_eq_true_eq]
      exact hnone a ha
    simp [get_services, hc, get_documents, hfil]

theorem services_category_filter_witness :
    ("Cosmetic" : String) ≠ "" ∧
    get_services none dbW2 = dbW2.service.map Doc.popId :=
  ⟨by decide, (services_category_filter dbW2 "Cosmetic" (by decide)).2.1⟩

/-- C7: no record returned by `GET /api/testimonials`, `GET
/api/services` or `GET /api/posts` carries the internal `_id` field —
it is stripped from every document before the response is built. -/
theorem listing_no_internal_id (db : DBState) (featured : Option Bool)
    (category tag : Option String) :
    (∀ d ∈ get_testimonials featured db, d.hasKey "_id" = false) ∧
    (∀ d ∈ get_services category db, d.hasKey "_id" = false) ∧
    (∀ d ∈ get_posts tag db, d.hasKey "_id" = false) := by
  refine ⟨?_, ?_, ?_⟩
  · intro d hd
    unfold get_testimonials at hd
    obtain ⟨d', _, rfl⟩ := List.mem_map.1 hd
    exact popId_hasKey_id d'
  · intro d hd
    unfold get_services at hd
    obtain ⟨d', _, rfl⟩ := List.mem_map.1 hd
    exact popId_hasKey_id d'
  · intro d hd
    unfold get_posts at hd
    obtain ⟨d', _, rfl⟩ := List.mem_map.1 hd
    exact popId_hasKey_id d'

theorem listing_no_internal_id_witness :
    Doc.popId [("_id", Value.str "5"), ("name", Value.str "X"),
               ("quote", Value.str "Y")]
      ∈ get_testimonials none dbW2 ∧
    (Doc.popId [("_id", Value.str "5"), ("name", Value.str "X"),
                ("quote", Value.str "Y")]).hasKey "_id" = false :=
  ⟨by decide,
   (listing_no_internal_id dbW2 none none none).1 _ (by decide)⟩

/-- C10: a present-but-empty `category` on `/api/services`, and a
present-but-empty `tag` on `/api/posts`, are falsy in the handler's
conditional, so no filter is applied: the result is identical to the
parameter being omitted, namely every record of the collection
(identifier stripped). -/
theorem empty_string_param_unfiltered (db : DBState) :
    get_services (some "") db = get_services none db ∧
    get_services none db = db.service.map Doc.popId ∧
    get_posts (some "") db = get_posts none db ∧
    get_posts none db = db.post.map Doc.popId := by
  refine ⟨?_, ?_, ?_, ?_⟩ <;>
    simp [get_services, get_posts, get_documents, filter_empty_all]

/-- C8: the diagnostic probe is total — whatever the handle, the
environment and the outcome of `list_collection_names`, it answers
HTTP 200 (with every field of the body present by construction), and
the failure modes land as descriptive strings in the `database` field:
an uninitialized handle and a raising collection listing each produce
their dedicated message. -/
theorem test_probe_never_fails (dbPresent : Bool) (url name : Option String)
    (listRes : Except String (List String)) :
    (test_database dbPresent url name listRes).1 = 200 ∧
    (test_database dbPresent url name listRes).2.backend = "✅ Running" ∧
    (dbPresent = false →
      (test_database dbPresent url name listRes).2.database
        = "⚠️ Available but not initialized") ∧
    (∀ e, dbPresent = true → listRes = .error e →
      (test_database dbPresent url name listRes).2.database
        = "⚠️ Connected but Error: " ++ trunc80 e) := by
  cases dbPresent <;> cases listRes <;> simp [test_database]

theorem test_probe_never_fails_witness :
    (test_database true none none (.error "boom")).1 = 200 ∧
    (test_database true none none (.error "boom")).2.database
      = "⚠️ Connected but Error: " ++ trunc80 "boom" :=
  ⟨(test_probe_never_fails true none none (.error "boom")).1,
   (test_probe_never_fails true none none (.error "boom")).2.2.2 "boom"
     rfl rfl⟩
